import Mathlib

/-!
Verification development for the GeoJSON dissolve application
(`src/streamlit_app.py`).

The Python program reads a GeoJSON feature collection into a GeoDataFrame,
dissolves (merges) features by the integer classification attribute `DN`,
attaches a human-readable `land_use` label from a fixed registry
(`DN_TO_LULC_MAP`, unknown codes become `"Unknown"`), reprojects to
EPSG:4326, and renders a Folium map with a deterministic color assignment
plus a legend and a download/export path.

Modelling conventions (shallow embedding):
- A GeoDataFrame is a `GDF`: a flag for whether the `DN` column exists,
  the list of the remaining attribute column names, the rows (DN value,
  other-column cell values, geometry), and an optional CRS.
- Geometry is abstracted to its coordinate content: a list of vertex
  points with integer coordinates (the pipeline only aggregates, bounds
  and averages coordinates; it never needs fractional inputs).  Geometric
  union (`unary_union` / dissolve aggregation) is modelled as combining
  the point lists; the shapely centroid is modelled as the exact average
  of the points and fails exactly when there are no points, matching the
  `try/except` behaviour of `create_map` on empty geometry.
- Exact fractions `Q` (unreduced numerator/denominator pairs with
  positive denominators by construction) stand in for Python float
  arithmetic where true division occurs (centroid, branca color
  interpolation); Mathlib's `Rat` is avoided because its arithmetic does
  not reduce in the kernel.
- pandas semantics embedded: `dissolve(by='DN')` groups by `DN` with
  group keys sorted ascending, aggregates the non-geometry columns with
  `aggfunc='first'` (first row of each group) and unions the geometry;
  `.index.map(m).fillna('Unknown')` is registry lookup with default;
  `reset_index` turns `DN` back into a column; `to_crs` fails exactly
  when the source CRS is missing and otherwise retags the CRS (the
  coordinate transform itself is external library code and is modelled
  as the identity on the stored coordinates — no claim refers to the
  numeric effect of reprojection).
- `sorted()` on Python strings compares Unicode code points
  lexicographically; this is `sLe` below, defined on `String.data` via
  `Char.toNat` (the built-in `String` order does not kernel-reduce).
- branca's `cm.linear.Set1_09.scale(0, n)` colormap called at integer
  sample points is embedded exactly: 9 anchor colors, anchor positions
  `n*j/8`, linear interpolation of the rgba channels and the
  `int(u * 255.9999)` hex formatting, with the float constant read as
  the exact decimal `255.9999`.
-/

namespace DissolveApp

/-- Exact fractions with (by construction) positive denominators; stands in
for Python float arithmetic.  No normalization is performed, so all
operations are plain integer arithmetic and reduce in the kernel. -/
structure Q where
  num : Int
  den : Int
deriving DecidableEq, Repr

/-- Embed an integer as a fraction. -/
def Q.ofInt (n : Int) : Q := ⟨n, 1⟩

/-- Strict order by cross multiplication (correct for positive denominators). -/
def Q.lt (a b : Q) : Prop := a.num * b.den < b.num * a.den

/-- Non-strict order by cross multiplication (correct for positive denominators). -/
def Q.le (a b : Q) : Prop := a.num * b.den ≤ b.num * a.den

instance (a b : Q) : Decidable (Q.lt a b) := Int.decLt _ _

instance (a b : Q) : Decidable (Q.le a b) := Int.decLe _ _

/-- Fraction addition (no reduction). -/
def Q.add (a b : Q) : Q := ⟨a.num * b.den + b.num * a.den, a.den * b.den⟩

/-- Fraction subtraction (no reduction). -/
def Q.sub (a b : Q) : Q := ⟨a.num * b.den - b.num * a.den, a.den * b.den⟩

/-- Fraction multiplication (no reduction). -/
def Q.mul (a b : Q) : Q := ⟨a.num * b.num, a.den * b.den⟩

/-- Fraction division (no reduction; used only with positive divisors). -/
def Q.div (a b : Q) : Q := ⟨a.num * b.den, a.den * b.num⟩

/-- Floor of a fraction with positive denominator. -/
def Q.floor (a : Q) : Int := Int.fdiv a.num a.den

/-- Lexicographic comparison of character lists by Unicode code point,
the order Python's `sorted` uses on strings. -/
def strLeb : List Char → List Char → Bool
  | [], _ => true
  | _ :: _, [] => false
  | a :: as, b :: bs =>
    if a.toNat < b.toNat then true
    else if b.toNat < a.toNat then false
    else strLeb as bs

/-- String order used by the model for `sorted(...)` on labels. -/
def sLe (a b : String) : Prop := strLeb a.data b.data = true

instance : DecidableRel sLe := fun a b => instDecidableEqBool (strLeb a.data b.data) true

/-- Sorted deduplication of a list of strings: the model of
`sorted(series.unique())`. -/
def sortedDedupStr (l : List String) : List String := (l.dedup).insertionSort sLe

/-- Sorted deduplication of a list of integers: the model of the group keys
produced by `groupby`/`dissolve` (pandas sorts group keys ascending). -/
def sortedDedupInt (l : List Int) : List Int := (l.dedup).insertionSort (· ≤ ·)

/-- A vertex point of a geometry (longitude, latitude). -/
abbrev Point := Int × Int

/-- A geometry, abstracted to its vertex content. -/
abbrev Geom := List Point

/-- One row of the input GeoDataFrame: the `DN` cell, the cells of the other
attribute columns (in column order) and the geometry. -/
structure Row where
  dn : Int
  attrs : List String
  geom : Geom
deriving DecidableEq, Repr

/-- The input GeoDataFrame as read by `gpd.read_file`. -/
structure GDF where
  hasDN : Bool
  otherCols : List String
  rows : List Row
  crs : Option String
deriving DecidableEq, Repr

/-- One row of the dissolved GeoDataFrame after `reset_index`:
the `DN` column, the mapped `land_use` column, the aggregated other
columns, and the merged geometry. -/
structure DRow where
  dn : Int
  land_use : String
  attrs : List String
  geom : Geom
deriving DecidableEq, Repr

/-- The dissolved GeoDataFrame. -/
structure Dissolved where
  otherCols : List String
  rows : List DRow
  crs : Option String
deriving DecidableEq, Repr

/-- The fixed classification registry `DN_TO_LULC_MAP` of the source. -/
def DN_TO_LULC_MAP : List (Int × String) :=
  [(1, "Water"), (2, "Tree Cover"), (4, "Flooded Vegetation"),
   (5, "Agriculture"), (7, "Built Area"), (8, "Bare Ground"),
   (11, "Rangeland")]

/-- The distinct classification codes of the input in ascending order:
the index produced by `gdf.dissolve(by='DN')`. -/
def dissolveCodes (g : GDF) : List Int := sortedDedupInt (g.rows.map (·.dn))

/-- Lines 38–45 of the source: `gdf.dissolve(by='DN')` (group keys sorted
ascending, geometry unioned per group, other columns aggregated with the
default `aggfunc='first'`), then `land_use` added by registry lookup with
`fillna('Unknown')`, then `reset_index`. -/
def dissolveByDN (g : GDF) (dnMap : List (Int × String)) : Dissolved :=
  { otherCols := g.otherCols
    rows := (dissolveCodes g).map (fun c =>
      let grp := g.rows.filter (fun r => r.dn == c)
      { dn := c
        land_use := (dnMap.lookup c).getD "Unknown"
        attrs := (grp.head?.map (·.attrs)).getD []
        geom := (grp.map (·.geom)).flatten })
    crs := g.crs }

/-- Line 48 of the source: `to_crs("EPSG:4326")`.  GeoPandas raises when the
GeoDataFrame has no CRS; otherwise the frame is reprojected (the numeric
coordinate transform is external and modelled as the identity) and retagged
with the target CRS. -/
def to_crs (d : Dissolved) (target : String) : Except String Dissolved :=
  match d.crs with
  | none => .error "Cannot transform naive geometries.  Please set a crs on the object first."
  | some _ => .ok { d with crs := some target }

/-- Lines 27–55 of the source, `process_data`: the whole pipeline body runs
inside `try/except`; reading the file may itself raise (modelled by the
`Except` input), a missing `DN` column returns `(None, None)` after a status
error, and any exception (here: reprojection failure) is caught and also
yields `(None, None)`. -/
def process_data (file : Except String GDF) (dnMap : List (Int × String)) :
    Option (GDF × Dissolved) :=
  match file with
  | .error _ => none
  | .ok gdf =>
    if gdf.hasDN = false then none
    else
      match to_crs (dissolveByDN gdf dnMap) "EPSG:4326" with
      | .error _ => none
      | .ok d => some (gdf, d)

/-- Line 97 of the source: the fixed 8-color qualitative palette used when
there are at most 8 distinct `land_use` categories. -/
def palette8 : List String :=
  ["#1f77b4", "#ff7f0e", "#2ca02c", "#d62728", "#9467bd", "#8c564b",
   "#e377c2", "#7f7f7f"]

/-- The nine anchor colors of branca's `Set1_09` colormap as rgb bytes. -/
def set1_09 : List (Nat × Nat × Nat) :=
  [(228, 26, 28), (55, 126, 184), (77, 175, 74), (152, 78, 163),
   (255, 127, 0), (255, 255, 51), (166, 86, 40), (247, 129, 191),
   (153, 153, 153)]

/-- Anchor position `j` of `Set1_09.scale(0, n)`: `vmin + (vmax-vmin)*j/8`
with `vmin = 0`, `vmax = n`. -/
def scaleIndex (n j : Nat) : Q := ⟨(n : Int) * (j : Int), 8⟩

/-- An rgb byte triple as channel fractions in `[0,1]` (branca stores colors
as floats `c/255`). -/
def chanFrac (c : Nat × Nat × Nat) : Q × Q × Q :=
  (⟨(c.1 : Int), 255⟩, ⟨(c.2.1 : Int), 255⟩, ⟨(c.2.2 : Int), 255⟩)

/-- branca `LinearColormap.rgba_floats_tuple` for `Set1_09.scale(0, n)` at
position `x` (the alpha channel is constantly 1 and is handled separately):
clamp to the first/last anchor color outside the anchor range, otherwise
linearly interpolate between the two neighbouring anchors. -/
def rgbFloats (n : Nat) (x : Q) : Q × Q × Q :=
  if Q.le x (scaleIndex n 0) then chanFrac (set1_09.getD 0 (0, 0, 0))
  else if Q.le (scaleIndex n 8) x then chanFrac (set1_09.getD 8 (0, 0, 0))
  else
    let i := ((List.range 9).filter (fun j => Q.lt (scaleIndex n j) x)).length
    let c1 := chanFrac (set1_09.getD (i - 1) (0, 0, 0))
    let c2 := chanFrac (set1_09.getD i (0, 0, 0))
    let d := Q.sub (scaleIndex n i) (scaleIndex n (i - 1))
    let w1 := Q.div (Q.sub (scaleIndex n i) x) d
    let w2 := Q.div (Q.sub x (scaleIndex n (i - 1))) d
    (Q.add (Q.mul w1 c1.1) (Q.mul w2 c2.1),
     Q.add (Q.mul w1 c1.2.1) (Q.mul w2 c2.2.1),
     Q.add (Q.mul w1 c1.2.2) (Q.mul w2 c2.2.2))

/-- branca's byte quantization `int(u * 255.9999)` of a channel fraction,
with the float constant read as the exact decimal `255.9999`. -/
def chan255 (u : Q) : Nat := (Q.floor ⟨u.num * 2559999, u.den * 10000⟩).toNat

/-- Lowercase hexadecimal digit. -/
def hexDigitChar (n : Nat) : Char :=
  if n < 10 then Char.ofNat (48 + n) else Char.ofNat (87 + n)

/-- Two lowercase hex digits of a byte: Python's `'%02x'`. -/
def hex2 (n : Nat) : List Char := [hexDigitChar (n / 16 % 16), hexDigitChar (n % 16)]

/-- branca `rgba_hex_str`: `'#%02x%02x%02x%02x'` over the quantized
channels. -/
def rgbaHexStr (r g b a : Q) : String :=
  String.mk ('#' :: (hex2 (chan255 r) ++ hex2 (chan255 g) ++
    hex2 (chan255 b) ++ hex2 (chan255 a)))

/-- Line 100–101 of the source: `cm.linear.Set1_09.scale(0, n)` evaluated at
the integer sample point `i` (`color_scale(i)`), yielding an `#rrggbbaa`
hex string. -/
def brancaScale (n i : Nat) : String :=
  let c := rgbFloats n ⟨(i : Int), 1⟩
  rgbaHexStr c.1 c.2.1 c.2.2 ⟨1, 1⟩

/-- Lines 94–103 of the source: `categories = sorted(gdf['land_use'].unique())`,
the 8-color palette when `len(categories) <= 8`, otherwise `n` samples of the
`Set1_09` linear colormap scaled to `(0, n)`, and finally
`color_map = {category: color for category, color in zip(categories, colors)}`
(dict insertion order = sorted category order). -/
def assignColors (labels : List String) : List (String × String) :=
  let categories := sortedDedupStr labels
  let colors :=
    if categories.length ≤ 8 then palette8
    else (List.range categories.length).map (fun i => brancaScale categories.length i)
  categories.zip colors

/-- A Folium map view: either `fit_bounds([[min_lat, min_lon], [max_lat, max_lon]])`
or a `location=[lat, lon]` center with a `zoom_start` level. -/
inductive Viewport where
  | fitBounds (minLat minLon maxLat maxLon : Int)
  | centerZoom (lat lon : Q) (zoom : Nat)
deriving DecidableEq, Repr

/-- All vertex points of the dissolved collection (the coordinate content of
`gdf.geometry.unary_union`). -/
def allPoints (d : Dissolved) : List Point := (d.rows.map (·.geom)).flatten

/-- Centroid of the unioned geometry, as exact coordinate averages; fails
(raising inside the source's `try`) exactly when the geometry has no
points. -/
def centroidOf : List Point → Option (Q × Q)
  | [] => none
  | p :: ps =>
    let pts := p :: ps
    some (⟨(pts.map (·.1)).sum, (pts.length : Int)⟩,
          ⟨(pts.map (·.2)).sum, (pts.length : Int)⟩)

/-- The total bounds `(min_lon, min_lat, max_lon, max_lat)` of the geometry
(`gdf.total_bounds`); unavailable when there are no points. -/
def boundsOf : List Point → Option (Int × Int × Int × Int)
  | [] => none
  | p :: ps =>
    some (ps.foldl
      (fun b q => (min b.1 q.1, min b.2.1 q.2, max b.2.2.1 q.1, max b.2.2.2 q.2))
      (p.1, p.2, p.1, p.2))

/-- Lines 57–128 of the source, `create_map`: on an empty frame return
`(None, {})`; otherwise compute the view inside `try/except` — centroid
first, then total bounds, then `fit_bounds` when both extents are positive,
else center + `zoom_start=10`; on an exception (no geometry points, so
centroid/bounds unavailable) fall back to `location=[0, 0]`,
`zoom_start=2` — and pair the map with the `land_use` color mapping of
lines 94–103. -/
def create_map (d : Dissolved) : Option Viewport × List (String × String) :=
  if d.rows.isEmpty then (none, [])
  else
    let pts := allPoints d
    let view :=
      match centroidOf pts, boundsOf pts with
      | some c, some (minLon, minLat, maxLon, maxLat) =>
        if maxLon - minLon > 0 ∧ maxLat - minLat > 0 then
          Viewport.fitBounds minLat minLon maxLat maxLon
        else
          Viewport.centerZoom c.2 c.1 10
      | _, _ => Viewport.centerZoom (Q.ofInt 0) (Q.ofInt 0) 2
    (some view, assignColors (d.rows.map (·.land_use)))

/-- The outputs the app body (lines 157–206 of the source) produces for one
successful run: the two summary counts, the rendered map view (when
`create_map` returned a map), the rendered legend (shown only when a map
object exists and the color mapping is non-empty), and the dissolved data
behind the export/download string. -/
structure Artifacts where
  originalCount : Nat
  dissolvedCount : Nat
  mapView : Option Viewport
  legend : Option (List (String × String))
  exportData : Dissolved
deriving DecidableEq, Repr

/-- The app body for one click of the process button with an uploaded file:
run `process_data`; on `(None, None)` nothing further is produced; otherwise
produce the summary, map, legend and export artifacts. -/
def appRun (file : Except String GDF) : Option Artifacts :=
  match process_data file DN_TO_LULC_MAP with
  | none => none
  | some (g, d) =>
    let mc := create_map d
    some { originalCount := g.rows.length
           dissolvedCount := d.rows.length
           mapView := mc.1
           legend := match mc.1 with
                     | none => none
                     | some _ => if mc.2.isEmpty then none else some mc.2
           exportData := d }

/-! Helper lemmas about the string order used for `sorted(...)`. -/

theorem char_eq_of_toNat_eq {a b : Char} (h : a.toNat = b.toNat) : a = b := by
  apply Char.ext
  unfold Char.toNat at h
  exact UInt32.toNat.inj h

theorem strLeb_total : ∀ as bs : List Char, strLeb as bs = true ∨ strLeb bs as = true := by
  intro as
  induction as with
  | nil => intro bs; left; rfl
  | cons a as ih =>
    intro bs
    cases bs with
    | nil => right; rfl
    | cons b bs =>
      by_cases hab : a.toNat < b.toNat
      · left; simp [strLeb, hab]
      · by_cases hba : b.toNat < a.toNat
        · right; simp [strLeb, hba]
        · rcases ih bs with h | h
          · left; simp [strLeb, hab, hba, h]
          · right; simp [strLeb, hab, hba, h]

theorem strLeb_trans : ∀ as bs cs : List Char,
    strLeb as bs = true → strLeb bs cs = true → strLeb as cs = true := by
  intro as
  induction as with
  | nil => intro bs cs _ _; rfl
  | cons a as ih =>
    intro bs cs hab hbc
    cases bs with
    | nil => simp [strLeb] at hab
    | cons b bs =>
      cases cs with
      | nil => simp [strLeb] at hbc
      | cons c cs =>
        simp only [strLeb] at hab hbc ⊢
        by_cases h1 : a.toNat < b.toNat
        · by_cases h2 : b.toNat < c.toNat
          · simp [Nat.lt_trans h1 h2]
          · by_cases h3 : c.toNat < b.toNat
            · simp [h2, h3] at hbc
            · have hbc' : b.toNat = c.toNat := Nat.le_antisymm (Nat.le_of_not_lt h3) (Nat.le_of_not_lt h2)
              simp [hbc' ▸ h1]
        · by_cases h1' : b.toNat < a.toNat
          · simp [h1, h1'] at hab
          · have hab' : a.toNat = b.toNat := Nat.le_antisymm (Nat.le_of_not_lt h1') (Nat.le_of_not_lt h1)
            simp only [h1, if_neg, h1', if_false, if_true] at hab
            by_cases h2 : b.toNat < c.toNat
            · simp [hab' ▸ h2]
            · by_cases h3 : c.toNat < b.toNat
              · simp [h2, h3] at hbc
              · simp only [h2, if_neg, h3, if_false, if_true] at hbc
                have hbc' : b.toNat = c.toNat := Nat.le_antisymm (Nat.le_of_not_lt h3) (Nat.le_of_not_lt h2)
                have : ¬ a.toNat < c.toNat := by omega
                have : ¬ c.toNat < a.toNat := by omega
                simp_all [ih bs cs]

theorem strLeb_antisymm : ∀ as bs : List Char,
    strLeb as bs = true → strLeb bs as = true → as = bs := by
  intro as
  induction as with
  | nil =>
    intro bs _ hba
    cases bs with
    | nil => rfl
    | cons b bs => simp [strLeb] at hba
  | cons a as ih =>
    intro bs hab hba
    cases bs with
    | nil => simp [strLeb] at hab
    | cons b bs =>
      simp only [strLeb] at hab hba
      by_cases h1 : a.toNat < b.toNat
      · have : ¬ b.toNat < a.toNat := by omega
        simp [this, Nat.lt_irrefl] at hba
        omega
      · by_cases h2 : b.toNat < a.toNat
        · simp [h1, h2] at hab
        · have he : a = b := char_eq_of_toNat_eq (by omega)
          simp only [h1, if_neg, h2, if_false, if_true] at hab hba
          rw [he, ih bs hab hba]

instance : IsTotal String sLe :=
  ⟨fun a b => strLeb_total a.data b.data⟩

instance : IsTrans String sLe :=
  ⟨fun a b c => strLeb_trans a.data b.data c.data⟩

theorem string_data_injective {a b : String} (h : a.data = b.data) : a = b := by
  cases a; cases b; simp only at h; rw [h]

instance : IsAntisymm String sLe :=
  ⟨fun a b hab hba => string_data_injective (strLeb_antisymm a.data b.data hab hba)⟩

/-! Helper lemmas about sorted deduplication, zipping and group lookup. -/

theorem sortedDedupStr_perm (l : List String) : (sortedDedupStr l).Perm l.dedup :=
  List.perm_insertionSort sLe l.dedup

theorem sortedDedupStr_sorted (l : List String) : (sortedDedupStr l).Sorted sLe :=
  List.sorted_insertionSort sLe l.dedup

theorem sortedDedupStr_nodup (l : List String) : (sortedDedupStr l).Nodup :=
  ((sortedDedupStr_perm l).nodup_iff).mpr (List.nodup_dedup l)

theorem mem_sortedDedupStr {a : String} {l : List String} :
    a ∈ sortedDedupStr l ↔ a ∈ l :=
  ((sortedDedupStr_perm l).mem_iff).trans List.mem_dedup

theorem sortedDedupStr_eq_of_perm {l1 l2 : List String} (h : l1.Perm l2) :
    sortedDedupStr l1 = sortedDedupStr l2 :=
  List.eq_of_perm_of_sorted
    (((sortedDedupStr_perm l1).trans h.dedup).trans (sortedDedupStr_perm l2).symm)
    (sortedDedupStr_sorted l1) (sortedDedupStr_sorted l2)

theorem sortedDedupInt_perm (l : List Int) : (sortedDedupInt l).Perm l.dedup :=
  List.perm_insertionSort _ l.dedup

theorem sortedDedupInt_nodup (l : List Int) : (sortedDedupInt l).Nodup :=
  ((sortedDedupInt_perm l).nodup_iff).mpr (List.nodup_dedup l)

theorem mem_sortedDedupInt {a : Int} {l : List Int} :
    a ∈ sortedDedupInt l ↔ a ∈ l :=
  ((sortedDedupInt_perm l).mem_iff).trans List.mem_dedup

theorem sortedDedupInt_length (l : List Int) :
    (sortedDedupInt l).length = l.dedup.length :=
  (sortedDedupInt_perm l).length_eq

theorem sortedDedupInt_sorted_lt (l : List Int) :
    (sortedDedupInt l).Sorted (· < ·) := by
  have hs : (sortedDedupInt l).Sorted (· ≤ ·) := List.sorted_insertionSort _ l.dedup
  have hn : (sortedDedupInt l).Nodup := sortedDedupInt_nodup l
  exact (List.Pairwise.and hs hn).imp (fun h => lt_of_le_of_ne h.1 h.2)

theorem sortedDedupInt_eq_of_perm {l1 l2 : List Int} (h : l1.Perm l2) :
    sortedDedupInt l1 = sortedDedupInt l2 :=
  List.eq_of_perm_of_sorted
    (((sortedDedupInt_perm l1).trans h.dedup).trans (sortedDedupInt_perm l2).symm)
    (List.sorted_insertionSort _ l1.dedup) (List.sorted_insertionSort _ l2.dedup)

theorem getElem?_zip_eq {α β : Type} (l1 : List α) (l2 : List β) (i : Nat) :
    (l1.zip l2)[i]? =
      match l1[i]?, l2[i]? with
      | some a, some b => some (a, b)
      | _, _ => none := by
  induction l1 generalizing l2 i with
  | nil => simp [List.zip]
  | cons a as ih =>
    cases l2 with
    | nil => simp [List.zip]
    | cons b bs =>
      cases i with
      | zero => simp
      | succ n => simpa using ih bs n

theorem map_snd_zip_eq_take {α β : Type} :
    ∀ (l1 : List α) (l2 : List β), (l1.zip l2).map Prod.snd = l2.take l1.length := by
  intro l1
  induction l1 with
  | nil => intro l2; simp
  | cons a as ih =>
    intro l2
    cases l2 with
    | nil => simp
    | cons b bs =>
      rw [List.zip_cons_cons, List.map_cons, ih bs]
      rfl

theorem find?_eq_head?_filter {α : Type} (p : α → Bool) :
    ∀ l : List α, l.find? p = (l.filter p).head? := by
  intro l
  induction l with
  | nil => rfl
  | cons a as ih =>
    by_cases h : p a = true
    · rw [List.find?_cons_of_pos _ h, List.filter_cons_of_pos h, List.head?_cons]
    · rw [List.find?_cons_of_neg _ h, List.filter_cons_of_neg h, ih]

theorem dissolve_rows_map_dn (g : GDF) (dnMap : List (Int × String)) :
    (dissolveByDN g dnMap).rows.map (·.dn) = dissolveCodes g := by
  unfold dissolveByDN
  rw [List.map_map]
  exact List.map_id'' (fun c => rfl) (dissolveCodes g)

/-! Structural equations for `process_data`. -/

theorem process_data_error_eq (e : String) (dnMap : List (Int × String)) :
    process_data (.error e) dnMap = none := rfl

theorem process_data_missing_dn_eq (g : GDF) (dnMap : List (Int × String))
    (h : g.hasDN = false) : process_data (.ok g) dnMap = none := by
  simp [process_data, h]

theorem process_data_no_crs_eq (g : GDF) (dnMap : List (Int × String))
    (h : g.crs = none) : process_data (.ok g) dnMap = none := by
  cases hd : g.hasDN with
  | false => simp [process_data, hd]
  | true => simp [process_data, to_crs, dissolveByDN, hd, h]

theorem process_data_ok_eq (g : GDF) (dnMap : List (Int × String)) (s : String)
    (h1 : g.hasDN = true) (h2 : g.crs = some s) :
    process_data (.ok g) dnMap =
      some (g, { dissolveByDN g dnMap with crs := some "EPSG:4326" }) := by
  simp only [process_data, to_crs, dissolveByDN, h1, h2]
  simp

theorem lookup_label_nonempty (c : Int) :
    (DN_TO_LULC_MAP.lookup c).getD "Unknown" ≠ "" := by
  simp only [DN_TO_LULC_MAP, List.lookup]
  repeat' split
  all_goals decide

/-- Claim C1: for every non-empty input feature collection carrying the
classification attribute `DN`, the dissolve step produces exactly one output
feature per distinct classification code present in the input: the number of
output features equals the number of distinct input codes, the output codes
are pairwise distinct, and a code occurs in the output exactly when it occurs
in the input. -/
theorem dissolve_one_feature_per_distinct_code (g : GDF) (dnMap : List (Int × String))
    (hDN : g.hasDN = true) (hne : g.rows ≠ []) :
    ((dissolveByDN g dnMap).rows.length = (g.rows.map (·.dn)).dedup.length) ∧
    ((dissolveByDN g dnMap).rows.map (·.dn)).Nodup ∧
    (∀ c : Int, c ∈ (dissolveByDN g dnMap).rows.map (·.dn) ↔ c ∈ g.rows.map (·.dn)) := by
  refine ⟨?_, ?_, ?_⟩
  · calc (dissolveByDN g dnMap).rows.length
        = ((dissolveByDN g dnMap).rows.map (·.dn)).length := (List.length_map _ _).symm
      _ = (dissolveCodes g).length := by rw [dissolve_rows_map_dn]
      _ = (g.rows.map (·.dn)).dedup.length := sortedDedupInt_length _
  · rw [dissolve_rows_map_dn]
    exact sortedDedupInt_nodup _
  · intro c
    rw [dissolve_rows_map_dn]
    exact mem_sortedDedupInt

/-- Input with three features over the two distinct codes 2 and 1,
used to witness C1 and C8. -/
def gTwoCodes : GDF :=
  { hasDN := true
    otherCols := []
    rows := [⟨2, [], [(0, 0), (2, 2)]⟩, ⟨1, [], [(1, 1)]⟩, ⟨2, [], [(3, 0)]⟩]
    crs := some "EPSG:32644" }

/-- Witness for C1 at a concrete input with two distinct codes. -/
theorem dissolve_one_feature_per_distinct_code_witness :
    (dissolveByDN gTwoCodes DN_TO_LULC_MAP).rows.length =
      (gTwoCodes.rows.map (·.dn)).dedup.length :=
  (dissolve_one_feature_per_distinct_code gTwoCodes DN_TO_LULC_MAP rfl (by decide)).1

/-- Claim C4: an input collection without the `DN` attribute column makes the
run fail with an error result and produces no partial output: `process_data`
returns `(None, None)` and the app body renders no summary, map, legend or
export for that run. -/
theorem missing_dn_fails_without_partial_output (g : GDF) (h : g.hasDN = false) :
    process_data (.ok g) DN_TO_LULC_MAP = none ∧ appRun (.ok g) = none := by
  have hp := process_data_missing_dn_eq g DN_TO_LULC_MAP h
  refine ⟨hp, ?_⟩
  unfold appRun
  rw [hp]

/-- Input collection lacking the `DN` column, used to witness C4. -/
def gMissingDN : GDF :=
  { hasDN := false
    otherCols := ["value"]
    rows := [⟨0, ["7"], [(0, 0)]⟩]
    crs := some "EPSG:32644" }

/-- Witness for C4 at a concrete input lacking the `DN` column. -/
theorem missing_dn_fails_without_partial_output_witness :
    process_data (.ok gMissingDN) DN_TO_LULC_MAP = none ∧
    appRun (.ok gMissingDN) = none :=
  missing_dn_fails_without_partial_output gMissingDN rfl

/-- Claim C5: label attachment is total and never fails: every dissolved
feature's `land_use` equals the registry value of its code when the code is
in `DN_TO_LULC_MAP` and `"Unknown"` otherwise, and is in every case a
non-empty string. -/
theorem label_attachment_total (g : GDF) :
    ∀ r ∈ (dissolveByDN g DN_TO_LULC_MAP).rows,
      r.land_use = (DN_TO_LULC_MAP.lookup r.dn).getD "Unknown" ∧ r.land_use ≠ "" := by
  intro r hr
  unfold dissolveByDN at hr
  simp only [List.mem_map] at hr
  obtain ⟨c, hc, rfl⟩ := hr
  exact ⟨rfl, lookup_label_nonempty c⟩

/-- Input whose single feature has the unmapped classification code 99,
used to witness C5. -/
def gUnknownCode : GDF :=
  { hasDN := true
    otherCols := []
    rows := [⟨99, [], [(0, 0)]⟩]
    crs := some "EPSG:32644" }

/-- Witness for C5: code 99 is unmapped, the run still succeeds and the
feature is labelled `"Unknown"`, which is non-empty. -/
theorem label_attachment_total_witness :
    ("Unknown" : String) = (DN_TO_LULC_MAP.lookup 99).getD "Unknown" ∧
    ("Unknown" : String) ≠ "" :=
  label_attachment_total gUnknownCode
    ⟨99, "Unknown", [], [(0, 0)]⟩ (by decide)

/-- Claim C9: every failure inside the pipeline is caught at the boundary of
`process_data` and surfaced as a result value with no dissolved output: a
file-reading failure, a missing `DN` column and a reprojection failure (no
source CRS) each yield `(None, None)`, and otherwise the run succeeds with
the dissolved, reprojected frame — `process_data` is a total function into
result values and never lets an exception escape. -/
theorem pipeline_failure_surfaces_as_result (g : GDF) (e : String)
    (dnMap : List (Int × String)) :
    process_data (.error e) dnMap = none ∧
    (g.hasDN = false → process_data (.ok g) dnMap = none) ∧
    (g.crs = none → process_data (.ok g) dnMap = none) ∧
    (∀ s, g.hasDN = true → g.crs = some s →
      process_data (.ok g) dnMap =
        some (g, { dissolveByDN g dnMap with crs := some "EPSG:4326" })) :=
  ⟨process_data_error_eq e dnMap,
   process_data_missing_dn_eq g dnMap,
   process_data_no_crs_eq g dnMap,
   fun s h1 h2 => process_data_ok_eq g dnMap s h1 h2⟩

/-- Input with a CRS and a `DN` column, used to witness C9's success case. -/
def gValid : GDF :=
  { hasDN := true
    otherCols := []
    rows := [⟨1, [], [(4, 4)]⟩]
    crs := some "EPSG:32644" }

/-- Witness for C9: a read error yields no output, and the success case
yields the dissolved frame retagged to EPSG:4326. -/
theorem pipeline_failure_surfaces_as_result_witness :
    process_data (.error "read failure") DN_TO_LULC_MAP = none ∧
    process_data (.ok gValid) DN_TO_LULC_MAP =
      some (gValid, { dissolveByDN gValid DN_TO_LULC_MAP with crs := some "EPSG:4326" }) :=
  ⟨(pipeline_failure_surfaces_as_result gValid "read failure" DN_TO_LULC_MAP).1,
   (pipeline_failure_surfaces_as_result gValid "read failure" DN_TO_LULC_MAP).2.2.2
     "EPSG:32644" rfl rfl⟩

/-- Zeta-reduced equation for `create_map`. -/
theorem create_map_eq (d : Dissolved) :
    create_map d =
      if d.rows.isEmpty then (none, [])
      else
        (some (match centroidOf (allPoints d), boundsOf (allPoints d) with
               | some c, some (minLon, minLat, maxLon, maxLat) =>
                 if maxLon - minLon > 0 ∧ maxLat - minLat > 0 then
                   Viewport.fitBounds minLat minLon maxLat maxLon
                 else
                   Viewport.centerZoom c.2 c.1 10
               | _, _ => Viewport.centerZoom (Q.ofInt 0) (Q.ofInt 0) 2),
         assignColors (d.rows.map (·.land_use))) := rfl

/-- Claim C10: with an empty dissolved collection, `create_map` returns no
map object and an empty color mapping, and consequently the app run renders
neither a map nor a legend. -/
theorem empty_dissolved_no_map_no_legend (g : GDF) (s : String)
    (h1 : g.hasDN = true) (h2 : g.crs = some s) (h3 : g.rows = []) :
    create_map { dissolveByDN g DN_TO_LULC_MAP with crs := some "EPSG:4326" } = (none, []) ∧
    (∃ a, appRun (.ok g) = some a ∧ a.mapView = none ∧ a.legend = none) := by
  have hrows : (dissolveByDN g DN_TO_LULC_MAP).rows = [] := by
    unfold dissolveByDN dissolveCodes sortedDedupInt
    rw [h3]
    rfl
  have hcm0 : ∀ dd : Dissolved, dd.rows = [] → create_map dd = (none, []) := by
    intro dd hdd
    rw [create_map_eq, hdd]
    rfl
  have hcm := hcm0 { dissolveByDN g DN_TO_LULC_MAP with crs := some "EPSG:4326" } hrows
  refine ⟨hcm, ?_⟩
  have hp := process_data_ok_eq g DN_TO_LULC_MAP s h1 h2
  have ha : appRun (.ok g) = some
      { originalCount := g.rows.length
        dissolvedCount := 0
        mapView := none
        legend := none
        exportData := { dissolveByDN g DN_TO_LULC_MAP with crs := some "EPSG:4326" } } := by
    unfold appRun
    rw [hp]
    simp only [hrows]
    rw [hcm0 _ rfl]
    rfl
  exact ⟨_, ha, rfl, rfl⟩

/-- Input with the `DN` column, a CRS and zero features, used to witness
C10. -/
def gEmpty : GDF :=
  { hasDN := true
    otherCols := []
    rows := []
    crs := some "EPSG:32644" }

/-- Witness for C10 at a concrete empty input. -/
theorem empty_dissolved_no_map_no_legend_witness :
    create_map { dissolveByDN gEmpty DN_TO_LULC_MAP with crs := some "EPSG:4326" } =
      (none, []) ∧
    (∃ a, appRun (.ok gEmpty) = some a ∧ a.mapView = none ∧ a.legend = none) :=
  empty_dissolved_no_map_no_legend gEmpty "EPSG:32644" rfl rfl rfl

/-- The empty dissolved collection, refuting C2's empty-input case. -/
def emptyDissolved : Dissolved :=
  { otherCols := []
    rows := []
    crs := some "EPSG:4326" }

/-- Counterexample to Claim C2 as stated: for the empty dissolved
collection, `create_map` does not return a valid viewport at all — it
returns no map object (`None`) rather than any bounding box, centroid or
world-default view. -/
theorem create_map_empty_returns_no_viewport :
    (create_map emptyDissolved).1 = none ∧
    ¬ ∃ v : Viewport, (create_map emptyDissolved).1 = some v := by
  have h : (create_map emptyDissolved).1 = none := by decide
  refine ⟨h, ?_⟩
  rintro ⟨v, hv⟩
  rw [h] at hv
  exact Option.noConfusion hv

/-- Claim C2 (amended): for every NON-empty dissolved collection the view
computation of `create_map` returns a viewport and never fails: when the
extent has positive width and height it fits the map to the bounding box;
otherwise it centers on the geometry centroid with the fixed default zoom
10; and when centroid computation fails (no geometry points) it falls back
to the world default view, center `(0, 0)` with zoom 2.  An empty collection
instead yields no map object at all. -/
theorem create_map_viewport_ladder (d : Dissolved) (h : d.rows ≠ []) :
    ((create_map d).1).isSome = true ∧
    (centroidOf (allPoints d) = none →
      (create_map d).1 = some (Viewport.centerZoom (Q.ofInt 0) (Q.ofInt 0) 2)) ∧
    (∀ cx cy minLon minLat maxLon maxLat,
      centroidOf (allPoints d) = some (cx, cy) →
      boundsOf (allPoints d) = some (minLon, minLat, maxLon, maxLat) →
      ((maxLon - minLon > 0 ∧ maxLat - minLat > 0 →
        (create_map d).1 = some (Viewport.fitBounds minLat minLon maxLat maxLon)) ∧
       (¬ (maxLon - minLon > 0 ∧ maxLat - minLat > 0) →
        (create_map d).1 = some (Viewport.centerZoom cy cx 10)))) := by
  have hie : d.rows.isEmpty = false := by
    cases hr : d.rows with
    | nil => exact absurd hr h
    | cons r rs => rfl
  rw [create_map_eq, hie]
  cases hpts : allPoints d with
  | nil =>
    refine ⟨rfl, fun _ => rfl, ?_⟩
    intro cx cy minLon minLat maxLon maxLat hc _
    rw [centroidOf] at hc
    exact absurd hc (by simp)
  | cons p ps =>
    refine ⟨rfl, ?_, ?_⟩
    · intro hc
      exact absurd hc (by simp [centroidOf])
    · intro cx cy minLon minLat maxLon maxLat hc hb
      rw [hc, hb]
      constructor
      · intro hpos
        show some (if maxLon - minLon > 0 ∧ maxLat - minLat > 0 then
            Viewport.fitBounds minLat minLon maxLat maxLon
          else Viewport.centerZoom cy cx 10) = _
        rw [if_pos hpos]
      · intro hneg
        show some (if maxLon - minLon > 0 ∧ maxLat - minLat > 0 then
            Viewport.fitBounds minLat minLon maxLat maxLon
          else Viewport.centerZoom cy cx 10) = _
        rw [if_neg hneg]

/-- Dissolved collection with a single one-point geometry (degenerate
extent), used to witness C2's centroid fallback. -/
def dOnePoint : Dissolved :=
  { otherCols := []
    rows := [⟨1, "Water", [], [(5, 7)]⟩]
    crs := some "EPSG:4326" }

/-- Witness for C2 (amended) at a concrete degenerate-extent input: the
view computation succeeds and takes the centroid + default-zoom branch. -/
theorem create_map_viewport_ladder_witness :
    ((create_map dOnePoint).1).isSome = true ∧
    (create_map dOnePoint).1 = some (Viewport.centerZoom ⟨7, 1⟩ ⟨5, 1⟩ 10) :=
  ⟨(create_map_viewport_ladder dOnePoint (by decide)).1,
   (((create_map_viewport_ladder dOnePoint (by decide)).2.2
      ⟨5, 1⟩ ⟨7, 1⟩ 5 7 5 7 (by decide) (by decide)).2 (by decide))⟩

/-- Zeta-reduced equation for `assignColors`. -/
theorem assignColors_eq (l : List String) :
    assignColors l =
      (sortedDedupStr l).zip
        (if (sortedDedupStr l).length ≤ 8 then palette8
         else (List.range (sortedDedupStr l).length).map
           (fun i => brancaScale (sortedDedupStr l).length i)) := rfl

theorem palette8_nodup : palette8.Nodup := by decide

/-- Claim C6: color assignment is deterministic and, up to 8 labels,
injective: the assignment depends only on the set of labels (any two
orderings of the same labels get the same mapping — in particular running
it twice yields identical results), and with at most 8 distinct labels the
label at sorted position `i` receives `palette[i]`, so no two labels share
a color. -/
theorem assignColors_deterministic_injective (l1 l2 : List String) (hp : l1.Perm l2) :
    assignColors l1 = assignColors l2 ∧
    ((sortedDedupStr l1).length ≤ 8 →
      ((assignColors l1).map Prod.snd).Nodup ∧
      (∀ i, i < (sortedDedupStr l1).length →
        (assignColors l1)[i]? = some ((sortedDedupStr l1).getD i "", palette8.getD i ""))) := by
  constructor
  · rw [assignColors_eq, assignColors_eq, sortedDedupStr_eq_of_perm hp]
  · intro h8
    constructor
    · rw [assignColors_eq, if_pos h8, map_snd_zip_eq_take]
      exact (List.take_sublist _ _).nodup palette8_nodup
    · intro i hi
      rw [assignColors_eq, if_pos h8, getElem?_zip_eq]
      have hc : (sortedDedupStr l1)[i]? = some ((sortedDedupStr l1).getD i "") := by
        rw [List.getD_eq_getElem?_getD, List.getElem?_eq_getElem hi]
        rfl
      have hp8 : palette8[i]? = some (palette8.getD i "") := by
        have hi8 : i < palette8.length := lt_of_lt_of_le hi h8
        rw [List.getD_eq_getElem?_getD, List.getElem?_eq_getElem hi8]
        rfl
      rw [hc, hp8]

/-- Witness for C6: two orderings of the same two labels receive the same
color mapping. -/
theorem assignColors_deterministic_injective_witness :
    assignColors ["b", "a"] = assignColors ["a", "b"] :=
  (assignColors_deterministic_injective ["b", "a"] ["a", "b"] (by decide)).1

/-- Input whose features carry an extra attribute column `name` besides
`DN`, refuting C7. -/
def gExtraCols : GDF :=
  { hasDN := true
    otherCols := ["name"]
    rows := [⟨1, ["first"], [(0, 0)]⟩, ⟨1, ["second"], [(1, 1)]⟩]
    crs := some "EPSG:32644" }

/-- Counterexample to Claim C7 as stated: pandas `dissolve` aggregates the
remaining attribute columns with `aggfunc='first'` instead of dropping
them, so the dissolved feature still carries the input column `name` (here
with the first group value `"first"`) — its attribute set is not just
{classification code, label}. -/
theorem dissolved_carries_input_attribute_column :
    (dissolveByDN gExtraCols DN_TO_LULC_MAP).otherCols = ["name"] ∧
    (dissolveByDN gExtraCols DN_TO_LULC_MAP).rows.map (·.attrs) = [["first"]] := by decide

/-- Claim C7 (amended): each dissolved feature carries the classification
code, the label, and additionally every other input attribute column,
aggregated by taking the value of the group's first feature (pandas
`dissolve` default `aggfunc='first'`). -/
theorem dissolve_attrs_are_first_of_group (g : GDF) (dnMap : List (Int × String)) :
    (dissolveByDN g dnMap).otherCols = g.otherCols ∧
    ∀ r ∈ (dissolveByDN g dnMap).rows,
      (g.rows.find? (fun x => x.dn == r.dn)).map (·.attrs) = some r.attrs := by
  refine ⟨rfl, ?_⟩
  intro r hr
  unfold dissolveByDN at hr
  simp only [List.mem_map] at hr
  obtain ⟨c, hc, rfl⟩ := hr
  show (g.rows.find? (fun x => x.dn == c)).map (·.attrs) =
    some ((((g.rows.filter (fun x => x.dn == c)).head?).map (·.attrs)).getD [])
  rw [find?_eq_head?_filter]
  have hmem : c ∈ g.rows.map (·.dn) := mem_sortedDedupInt.mp hc
  obtain ⟨row, hrow, hdn⟩ := List.mem_map.mp hmem
  have hmf : row ∈ g.rows.filter (fun x => x.dn == c) :=
    List.mem_filter.mpr ⟨hrow, by simp [hdn]⟩
  rcases hh : (g.rows.filter (fun x => x.dn == c)).head? with _ | row0
  · rw [List.head?_eq_none_iff] at hh
    rw [hh] at hmf
    exact absurd hmf (List.not_mem_nil row)
  · rw [hh]
    rfl

/-- Witness for C7 (amended): in `gExtraCols`, the dissolved feature of
code 1 keeps the `name` value of the group's first feature. -/
theorem dissolve_attrs_are_first_of_group_witness :
    (gExtraCols.rows.find? (fun x => x.dn == (1 : Int))).map (·.attrs) =
      some ["first"] :=
  (dissolve_attrs_are_first_of_group gExtraCols DN_TO_LULC_MAP).2
    ⟨1, "Water", ["first"], [(0, 0), (1, 1)]⟩ (by decide)

/-- Claim C8: the dissolved output is ordered by strictly ascending
classification code, the code sequence is the same for any reordering of
the input features (deterministic across runs), and the later pipeline
stages (reprojection) preserve the dissolved rows unchanged in
`process_data`'s successful result. -/
theorem dissolved_output_sorted_ascending_deterministic (g1 g2 : GDF)
    (dnMap : List (Int × String)) (hp : g1.rows.Perm g2.rows) :
    ((dissolveByDN g1 dnMap).rows.map (·.dn)).Sorted (· < ·) ∧
    (dissolveByDN g1 dnMap).rows.map (·.dn) = (dissolveByDN g2 dnMap).rows.map (·.dn) ∧
    (∀ gg d, process_data (.ok g1) dnMap = some (gg, d) →
      d.rows = (dissolveByDN g1 dnMap).rows) := by
  refine ⟨?_, ?_, ?_⟩
  · rw [dissolve_rows_map_dn]
    exact sortedDedupInt_sorted_lt _
  · rw [dissolve_rows_map_dn, dissolve_rows_map_dn]
    exact sortedDedupInt_eq_of_perm (hp.map _)
  · intro gg d hd
    by_cases h1 : g1.hasDN = true
    · rcases hc : g1.crs with _ | s
      · rw [process_data_no_crs_eq g1 dnMap hc] at hd
        exact absurd hd (by simp)
      · rw [process_data_ok_eq g1 dnMap s h1 hc] at hd
        have h2 : d = { dissolveByDN g1 dnMap with crs := some "EPSG:4326" } :=
          (congrArg Prod.snd (Option.some.inj hd)).symm
        rw [h2]
    · have h1' : g1.hasDN = false := by revert h1; cases g1.hasDN <;> simp
      rw [process_data_missing_dn_eq g1 dnMap h1'] at hd
      exact absurd hd (by simp)

/-- The rows of `gTwoCodes` in a different input order, used to witness
C8's order-independence. -/
def gTwoCodesShuffled : GDF :=
  { hasDN := true
    otherCols := []
    rows := [⟨1, [], [(1, 1)]⟩, ⟨2, [], [(3, 0)]⟩, ⟨2, [], [(0, 0), (2, 2)]⟩]
    crs := some "EPSG:32644" }

/-- Witness for C8: the two input orders produce the same ascending code
sequence. -/
theorem dissolved_output_sorted_ascending_deterministic_witness :
    (dissolveByDN gTwoCodes DN_TO_LULC_MAP).rows.map (·.dn) =
      (dissolveByDN gTwoCodesShuffled DN_TO_LULC_MAP).rows.map (·.dn) :=
  (dissolved_output_sorted_ascending_deterministic gTwoCodes gTwoCodesShuffled
    DN_TO_LULC_MAP (by decide)).2.1

/-- Ten distinct labels in sorted order, refuting C3's claim that the first
8 of them would receive fixed-palette colors. -/
def tenLabels : List String :=
  ["c0", "c1", "c2", "c3", "c4", "c5", "c6", "c7", "c8", "c9"]

/-- Counterexample to Claim C3 as stated: with 10 distinct labels the code
takes the `else` branch and samples ALL 10 colors from the `Set1_09`
linear colormap; the first sorted label receives the interpolated color
`#e41a1cff`, which is not an element of the fixed 8-color palette — so the
first 8 labels do not receive fixed-palette colors. -/
theorem ten_labels_first_color_not_from_palette :
    (assignColors tenLabels).length = 10 ∧
    ((assignColors tenLabels).map Prod.snd).head? = some "#e41a1cff" ∧
    "#e41a1cff" ∉ palette8 := by decide

/-- Claim C3 (amended): with more than 8 distinct labels, palette
assignment still returns one entry per label, but every label — including
the first 8 — receives its color from the continuous `Set1_09` color-scale
interpolation sampled at its sorted position; the fixed 8-color palette is
not used at all. -/
theorem assignColors_overflow_all_from_scale (labels : List String)
    (h : 8 < (sortedDedupStr labels).length) :
    (assignColors labels).length = (sortedDedupStr labels).length ∧
    (∀ i, i < (sortedDedupStr labels).length →
      (assignColors labels)[i]? =
        some ((sortedDedupStr labels).getD i "",
          brancaScale (sortedDedupStr labels).length i)) := by
  have hn : ¬ (sortedDedupStr labels).length ≤ 8 := by omega
  constructor
  · rw [assignColors_eq, if_neg hn, List.length_zip, List.length_map,
      List.length_range, min_self]
  · intro i hi
    rw [assignColors_eq, if_neg hn, getElem?_zip_eq]
    have hc : (sortedDedupStr labels)[i]? = some ((sortedDedupStr labels).getD i "") := by
      rw [List.getD_eq_getElem?_getD, List.getElem?_eq_getElem hi]
      rfl
    have hcol : ((List.range (sortedDedupStr labels).length).map
        (fun j => brancaScale (sortedDedupStr labels).length j))[i]? =
        some (brancaScale (sortedDedupStr labels).length i) := by
      rw [List.getElem?_map, List.getElem?_range hi]
      rfl
    rw [hc, hcol]

/-- Nine distinct labels, used to witness C3 (amended). -/
def nineLabels : List String :=
  ["k0", "k1", "k2", "k3", "k4", "k5", "k6", "k7", "k8"]

/-- Witness for C3 (amended): with 9 distinct labels, the first sorted
label receives the scale sample at position 0 — the first `Set1_09` anchor
color — rather than a fixed-palette color. -/
theorem assignColors_overflow_all_from_scale_witness :
    (assignColors nineLabels)[0]? = some ("k0", "#e41a1cff") :=
  (assignColors_overflow_all_from_scale nineLabels (by decide)).2 0 (by decide)

end DissolveApp
